import Mathlib

/-!
# Verification of the Uniplex MCP SDK local permission gate

Shallow embedding of the hot-path verification pipeline, constraint
merge, decimal normalizer and consumption-receipt commerce functions,
together with theorems settling the specification claims.

Sources embedded (file names as in the repository):
* `src/transforms.ts` — `transformToCanonical` (decimal normalizer)
* `src/verification.ts` / verification module v1.2.0 — `mergeConstraints`,
  `validateConstraints`, `resolveCatalogVersion`, `verifyLocally`,
  `InMemoryRateLimiter`
* `src/types.ts` — `CONSTRAINT_TYPES`, commerce helpers `computePlatformFee`,
  `computeCallCost`, `computeTimeCost`, `extractPricingConstraints`,
  `extractPlatformFeeConstraints`
* commerce module — `issueConsumptionAttestation`, `verifyConsumptionAttestation`

External collaborators (the `evaluateConstraints`
and `evaluateAnonymousAccess` functions of the `uniplex` protocol SDK,
and the ed25519 primitive behind
`verifySignatureSync`) are modelled as opaque function parameters: the
embedded pipeline only observes their returned values, exactly as the
TypeScript code does.

JavaScript `number` values that the code keeps inside the safe-integer
range are modelled as `Int`/`Nat`; `Record<string, unknown>` maps are
modelled as association lists with JavaScript object-update semantics.
-/

namespace Uniplex

/-! ## Decimal normalizer (`src/transforms.ts`, `transformToCanonical`) -/

/-- The `TransformMode` union from `src/types.ts` (strict, round, truncate). -/
inductive TransformMode where
  | strict
  | round
  | truncate
deriving DecidableEq, Repr

/-- The three error outcomes of `transformToCanonical` (the function throws
`Error` in TypeScript; the messages distinguish these three cases). -/
inductive TransformError where
  | invalidNumeric
  | precisionExceeded
  | overflow
deriving DecidableEq, Repr

/-- Whitespace predicate used to model `String.prototype.trim`. -/
def isWS (c : Char) : Bool :=
  c == ' ' || c == '\t' || c == '\n' || c == '\r'

/-- Models `String.prototype.trim`: drop whitespace from both ends. -/
def trimChars (l : List Char) : List Char :=
  ((l.dropWhile isWS).reverse.dropWhile isWS).reverse

/-- Numeric value of a decimal digit character. -/
def digitVal (c : Char) : Nat := c.toNat - 48

/-- Value of a decimal digit string, as computed by JavaScript `BigInt(str)`
on a string of digits (empty string gives 0, matching the code's
`padded === '' ? 0n : BigInt(padded)` guard). -/
def digitsToNat (ds : List Char) : Nat :=
  ds.foldl (fun a c => 10 * a + digitVal c) 0

/-- The `str0.replace(/^[+-]/, '')` (`transforms.ts:40`): strip one leading sign. -/
def stripSign (cs : List Char) : List Char :=
  match cs with
  | c :: t => if c = '+' ∨ c = '-' then t else cs
  | [] => []

/-- The `str0.startsWith('-')` (`transforms.ts:39`). -/
def isNegOf (cs : List Char) : Bool :=
  match cs with
  | c :: _ => c = '-'
  | [] => false

/-- Parse of the decimal grammar `[+-]?\d+(\.\d+)?` (the regular expression
at `transforms.ts:35`), fused with the subsequent recovery of the sign and
the `split('.')` into integer and fractional digit strings
(`transforms.ts:39-43`). Returns `some (isNegative, whole, dec)` exactly
when the character list matches the grammar. -/
def grammarSplit (cs : List Char) : Option (Bool × List Char × List Char) :=
  let rest := stripSign cs
  let w := rest.takeWhile Char.isDigit
  let r := rest.dropWhile Char.isDigit
  if w.isEmpty then none
  else if r.isEmpty then some (isNegOf cs, w, [])
  else if r.head? = some '.' ∧ r.tail.isEmpty = false ∧ r.tail.all Char.isDigit
  then some (isNegOf cs, w, r.tail)
  else none

/-- The `Number.MAX_SAFE_INTEGER = 2^53 - 1`. -/
def maxSafeInteger : Int := 9007199254740991

/-- The `decDigits.padEnd(precision, '0').slice(0, precision)` from the `build`
closure at `transforms.ts:50`. -/
def padEndTake (d : List Char) (precision : Nat) : List Char :=
  (d ++ List.replicate (precision - d.length) '0').take precision

/-- The `isNegative ? -result : result` (`transforms.ts:74`). -/
def applySign (neg : Bool) (m : Nat) : Int :=
  if neg then -(m : Int) else (m : Int)

/-- The overflow guard at `transforms.ts:77-79`: reject results outside
`[-MAX_SAFE_INTEGER, MAX_SAFE_INTEGER]` (inclusive bounds). -/
def checkSafeRange (n : Int) : Except TransformError Int :=
  if n > maxSafeInteger ∨ n < -maxSafeInteger then .error .overflow
  else .ok n

/-- The `transformToCanonical` from `src/transforms.ts:27-82`.

The TypeScript computes with `BigInt`; the `Nat` arithmetic here is the
same arbitrary-precision arithmetic. `String(value).trim()` is modelled by
`trimChars`, the regular-expression validation plus sign stripping plus
`split('.')` by `grammarSplit`, and `build` by `digitsToNat ∘ padEndTake`
(with `BigInt(whole)` as `digitsToNat whole`). -/
def transformToCanonical (value : String) (precision : Nat)
    (mode : TransformMode) : Except TransformError Int :=
  let str0 := trimChars value.data
  match grammarSplit str0 with
  | none => .error .invalidNumeric
  | some (isNegative, whole, dec) =>
    let base : Nat := 10 ^ precision
    let build : List Char → Nat := fun decDigits =>
      digitsToNat whole * base + digitsToNat (padEndTake decDigits precision)
    let resultMag : Except TransformError Nat :=
      if dec.length > precision then
        match mode with
        | .strict => .error .precisionExceeded
        | .truncate => .ok (build (dec.take precision))
        | .round =>
            let nextDigit := digitVal (dec.getD precision '0')
            let truncated := build (dec.take precision)
            .ok (if nextDigit ≥ 5 then truncated + 1 else truncated)
      else .ok (build dec)
    match resultMag with
    | .error e => .error e
    | .ok m => checkSafeRange (applySign isNegative m)

/-! ## Constraint values and maps

`Record<string, unknown>` maps are association lists with JavaScript
object-update semantics (`setA` replaces an existing binding in place,
otherwise appends). Constraint values are modelled by `JVal`; JavaScript
numbers that the code keeps in the safe-integer range are `Int`. -/

/-- A JavaScript value as it occurs in constraint maps and request
contexts (`unknown` in the TypeScript signatures). -/
inductive JVal where
  | num (n : Int)
  | str (s : String)
  | boolean (b : Bool)
  | nullV
deriving DecidableEq, Repr

/-- The typeof-is-number test applied to constraint values. -/
def JVal.isNum : JVal → Bool
  | .num _ => true
  | _ => false

/-- Object property read `m[k]`. -/
def lookupA {κ α : Type} [DecidableEq κ] : List (κ × α) → κ → Option α
  | [], _ => none
  | (k', v) :: t, k => if k' = k then some v else lookupA t k

/-- Object property write `m[k] = v`: replace an existing binding in
place, otherwise append (JavaScript property insertion order). -/
def setA {κ α : Type} [DecidableEq κ] :
    List (κ × α) → κ → α → List (κ × α)
  | [], k, v => [(k, v)]
  | (k', v') :: t, k, v =>
      if k' = k then (k, v) :: t else (k', v') :: setA t k v

/-- A `Record<string, unknown>` constraint map or request context. -/
abbrev CMap := List (String × JVal)

/-- The `ConstraintType` union from `src/types.ts` (limit or term). -/
inductive ConstraintType where
  | limit
  | term
deriving DecidableEq, Repr

/-- The `CONSTRAINT_TYPES` registry from `src/types.ts` (v1.2.0): the
`type` field of the entry for `key`, `none` for unregistered keys. The
`valueType` field is never read by the embedded code and is omitted. -/
def CONSTRAINT_TYPES (key : String) : Option ConstraintType :=
  if key = "core:rate:max_per_minute" ∨ key = "core:rate:max_per_hour" ∨
      key = "core:rate:max_per_day" ∨ key = "core:cost:max_per_action" ∨
      key = "core:cost:max_cumulative" then some .limit
  else if key = "core:pricing:per_call_cents" ∨
      key = "core:pricing:per_minute_cents" ∨ key = "core:pricing:model" ∨
      key = "core:pricing:currency" ∨ key = "core:pricing:free_tier_calls" ∨
      key = "core:sla:uptime_basis_points" ∨
      key = "core:sla:response_time_ms" ∨ key = "core:sla:p99_response_ms" ∨
      key = "core:platform_fee:basis_points" then some .term
  else none

/-- One iteration of the `for (const [key, passportValue] of
Object.entries(passportConstraints))` loop in `mergeConstraints`
(verification module v1.2.0, lines 248-265). The match arms mirror the
conditional chain: limit-typed key with numeric value → min-merge;
term-typed key → keep the catalog value; anything else (including a
limit-typed key with a non-numeric value) → pass the passport value
through. -/
def mergeStep (merged : CMap) (key : String) (passportValue : JVal) : CMap :=
  match CONSTRAINT_TYPES key, passportValue with
  | some .limit, .num n =>
      (match lookupA merged key with
       | some (.num m) => setA merged key (.num (min m n))
       | _ => setA merged key (.num n))
  | some .term, _ => merged
  | some .limit, v => setA merged key v
  | none, v => setA merged key v

/-- The `mergeConstraints` from the verification module (v1.2.0, lines
242-268): start from a copy of the catalog constraints and fold the
passport constraints over `mergeStep`. -/
def mergeConstraints (catalogConstraints passportConstraints : CMap) : CMap :=
  passportConstraints.foldl (fun merged e => mergeStep merged e.1 e.2)
    catalogConstraints

/-- The value the merged map holds at `key` after one `mergeStep`, as a
function of the value the accumulator held there. -/
def mergeKeyResult (mk : Option JVal) (key : String) (pv : JVal) :
    Option JVal :=
  match CONSTRAINT_TYPES key, pv with
  | some .limit, .num n =>
    (match mk with
     | some (.num mv) => some (.num (min mv n))
     | _ => some (.num n))
  | some .term, _ => mk
  | some .limit, v => some v
  | none, v => some v

/-! ## Commerce functions (`src/types.ts` and the commerce module) -/

/-- The `PricingModel` from `src/types.ts`. -/
inductive PricingModel where
  | per_call
  | per_minute
  | subscription
  | usage
deriving DecidableEq, Repr

/-- The `PricingConstraints` from `src/types.ts`. -/
structure PricingConstraints where
  per_call_cents : Option Int
  per_minute_cents : Option Int
  subscription_cents : Option Int
  model : Option PricingModel
  currency : Option String
  free_tier_calls : Option Int
deriving DecidableEq, Repr

/-- The `PlatformFeeConstraints` from `src/types.ts`. -/
structure PlatformFeeConstraints where
  basis_points : Option Int
  recipient : Option String
deriving DecidableEq, Repr

/-- The two `throw new Error(...)` cases of `computePlatformFee`. -/
inductive CommerceError where
  | negativeCost
  | negativeBasisPoints
deriving DecidableEq, Repr

/-- The `Math.ceil(a / b)` for positive `b`, under exact integer arithmetic
(integer division on `Int` is floor division for a positive divisor, so
negating twice gives the ceiling). -/
def mathCeilDiv (a b : Int) : Int := -((-a) / b)

/-- The `computePlatformFee` from `src/types.ts`:
`ceil(serviceCostCents * basisPoints / 10000)`, throwing on negative
inputs. -/
def computePlatformFee (serviceCostCents basisPoints : Int) :
    Except CommerceError Int :=
  if serviceCostCents < 0 then .error .negativeCost
  else if basisPoints < 0 then .error .negativeBasisPoints
  else .ok (mathCeilDiv (serviceCostCents * basisPoints) 10000)

/-- The `computeCallCost` from `src/types.ts`. -/
def computeCallCost (pricing : PricingConstraints) (units : Int) : Int :=
  match pricing.per_call_cents with
  | some p => p * units
  | none => 0

/-- The `computeTimeCost` from `src/types.ts`:
`per_minute_cents * Math.ceil(durationMs / 60000)`. -/
def computeTimeCost (pricing : PricingConstraints) (durationMs : Int) : Int :=
  match pricing.per_minute_cents with
  | some p => p * mathCeilDiv durationMs 60000
  | none => 0

/-- Numeric read of a constraint key: the TypeScript
`constraints[k] as number | undefined` cast assumes the stored value is a
number when present; non-numeric values are modelled as absent. -/
def numLookup (m : CMap) (k : String) : Option Int :=
  match lookupA m k with
  | some (.num n) => some n
  | _ => none

/-- String read of a constraint key (same cast convention). -/
def strLookup (m : CMap) (k : String) : Option String :=
  match lookupA m k with
  | some (.str s) => some s
  | _ => none

/-- The `extractPricingConstraints` from `src/types.ts`. A stored model
string other than the four `PricingModel` values behaves, in every
comparison the code makes, like an absent model and is modelled as
`none`. -/
def extractPricingConstraints (constraints : CMap) : PricingConstraints :=
  { per_call_cents := numLookup constraints "core:pricing:per_call_cents"
    per_minute_cents := numLookup constraints "core:pricing:per_minute_cents"
    subscription_cents := numLookup constraints "core:pricing:subscription_cents"
    model :=
      match strLookup constraints "core:pricing:model" with
      | some "per_call" => some .per_call
      | some "per_minute" => some .per_minute
      | some "subscription" => some .subscription
      | some "usage" => some .usage
      | _ => none
    currency := strLookup constraints "core:pricing:currency"
    free_tier_calls := numLookup constraints "core:pricing:free_tier_calls" }

/-- The `extractPlatformFeeConstraints` from `src/types.ts`. -/
def extractPlatformFeeConstraints (constraints : CMap) :
    PlatformFeeConstraints :=
  { basis_points := numLookup constraints "core:platform_fee:basis_points"
    recipient := strLookup constraints "core:platform_fee:recipient" }

/-- The `ConsumptionData` from `src/types.ts`. -/
structure ConsumptionData where
  units : Int
  cost_cents : Int
  platform_fee_cents : Int
  timestamp : String
  duration_ms : Option Int
deriving DecidableEq, Repr

/-- The signed part of a `ConsumptionAttestation`: every field except
`proof`, in the field order of the object literal built by
`issueConsumptionAttestation` (the constant consumption-type tag
is emitted by the serializer). `effective_constraints`
is the two-field object `{pricing, platform_fee}` the issuer builds; an
attestation whose `effective_constraints` lacks one of them behaves, by
the `?? ` defaults in the verifier, like the all-absent record. -/
structure AttestationPayload where
  attestation_id : String
  gate_id : String
  agent_id : String
  passport_id : String
  permission_key : String
  catalog_version : Int
  catalog_content_hash : Option String
  request_nonce : Option String
  pricing : PricingConstraints
  platform_fee : PlatformFeeConstraints
  consumption : ConsumptionData
deriving DecidableEq, Repr

/-- The `proof` object (the constant JWS type tag is omitted). -/
structure AttestationProof where
  kid : String
  sig : String
deriving DecidableEq, Repr

/-- The `ConsumptionAttestation` = signed payload + detached proof. -/
structure ConsumptionAttestation where
  payload : AttestationPayload
  proof : AttestationProof
deriving DecidableEq, Repr

/-- JSON string literal (strings are rendered verbatim; the embedding
covers strings without characters that JSON.stringify would escape). -/
def jsonStr (s : String) : String := "\"" ++ s ++ "\""

def jfield (k v : String) : String := jsonStr k ++ ":" ++ v

def joinFields (fs : List String) : String :=
  "\x7b" ++ String.intercalate "," fs ++ "\x7d"

def pricingModelString : PricingModel → String
  | .per_call => "per_call"
  | .per_minute => "per_minute"
  | .subscription => "subscription"
  | .usage => "usage"

/-- The `JSON.stringify` of a `PricingConstraints` record: insertion order of
`extractPricingConstraints`, `undefined` fields omitted. -/
def pricingJson (p : PricingConstraints) : String :=
  joinFields (List.filterMap id
    [p.per_call_cents.map (fun n => jfield "per_call_cents" (toString n)),
     p.per_minute_cents.map (fun n => jfield "per_minute_cents" (toString n)),
     p.subscription_cents.map
       (fun n => jfield "subscription_cents" (toString n)),
     p.model.map (fun m => jfield "model" (jsonStr (pricingModelString m))),
     p.currency.map (fun c => jfield "currency" (jsonStr c)),
     p.free_tier_calls.map (fun n => jfield "free_tier_calls" (toString n))])

/-- The `JSON.stringify` of a `PlatformFeeConstraints` record. -/
def platformFeeJson (p : PlatformFeeConstraints) : String :=
  joinFields (List.filterMap id
    [p.basis_points.map (fun n => jfield "basis_points" (toString n)),
     p.recipient.map (fun r => jfield "recipient" (jsonStr r))])

/-- The `JSON.stringify` of a `ConsumptionData` record (`duration_ms` is
included exactly when defined, per the
`...(duration_ms !== undefined && \x7b duration_ms \x7d)` spread). -/
def consumptionJson (c : ConsumptionData) : String :=
  joinFields
    ([jfield "units" (toString c.units),
      jfield "cost_cents" (toString c.cost_cents),
      jfield "platform_fee_cents" (toString c.platform_fee_cents),
      jfield "timestamp" (jsonStr c.timestamp)] ++
     (match c.duration_ms with
      | some d => [jfield "duration_ms" (toString d)]
      | none => []))

/-- The canonical JSON of the signed payload: `JSON.stringify` of the
attestation object without `proof`, in the insertion order of
`issueConsumptionAttestation`. `catalog_content_hash` and
`request_nonce` are included exactly when truthy (present and
non-empty), per the `...(catalog_content_hash && \x7b ... \x7d)` spreads. -/
def canonicalJson (p : AttestationPayload) : String :=
  joinFields
    ([jfield "attestation_type" (jsonStr "consumption"),
      jfield "attestation_id" (jsonStr p.attestation_id),
      jfield "gate_id" (jsonStr p.gate_id),
      jfield "agent_id" (jsonStr p.agent_id),
      jfield "passport_id" (jsonStr p.passport_id),
      jfield "permission_key" (jsonStr p.permission_key),
      jfield "catalog_version" (toString p.catalog_version)] ++
     (match p.catalog_content_hash with
      | some h => if h = "" then [] else [jfield "catalog_content_hash" (jsonStr h)]
      | none => []) ++
     (match p.request_nonce with
      | some n => if n = "" then [] else [jfield "request_nonce" (jsonStr n)]
      | none => []) ++
     [jfield "effective_constraints"
        (joinFields [jfield "pricing" (pricingJson p.pricing),
                     jfield "platform_fee" (platformFeeJson p.platform_fee)]),
      jfield "consumption" (consumptionJson p.consumption)])

/-- The `IssueReceiptParams` from the commerce module. The `sign` callback,
the generated `attestation_id` and the clock reading `timestamp` are
passed to `issueConsumptionAttestation` separately. -/
structure IssueReceiptParams where
  gate_id : String
  agent_id : String
  passport_id : String
  permission_key : String
  catalog_version : Int
  catalog_content_hash : Option String
  effective_constraints : CMap
  request_nonce : Option String
  units : Option Int
  duration_ms : Option Int
  signing_key_id : String
deriving DecidableEq, Repr

/-- The `issueConsumptionAttestation` from the commerce module: extract
pricing and platform fee from the effective constraints, compute
`cost_cents` (time cost when `pricing.model === 'per_minute'` and
`duration_ms !== undefined`, call cost otherwise), compute the platform
fee when `basis_points` is truthy, build the payload, sign its canonical
JSON. A `computePlatformFee` throw propagates as `.error`. -/
def issueConsumptionAttestation (params : IssueReceiptParams)
    (sign : String → String) (attestation_id : String) (timestamp : String) :
    Except CommerceError ConsumptionAttestation :=
  let units := params.units.getD 1
  let pricing := extractPricingConstraints params.effective_constraints
  let platformFee := extractPlatformFeeConstraints params.effective_constraints
  let cost_cents :=
    match pricing.model, params.duration_ms with
    | some .per_minute, some d => computeTimeCost pricing d
    | _, _ => computeCallCost pricing units
  (match platformFee.basis_points with
   | some bp => if bp = 0 then Except.ok 0 else computePlatformFee cost_cents bp
   | none => Except.ok 0).bind fun platform_fee_cents =>
  let consumption : ConsumptionData :=
    { units := units, cost_cents := cost_cents,
      platform_fee_cents := platform_fee_cents, timestamp := timestamp,
      duration_ms := params.duration_ms }
  let payload : AttestationPayload :=
    { attestation_id := attestation_id, gate_id := params.gate_id,
      agent_id := params.agent_id, passport_id := params.passport_id,
      permission_key := params.permission_key,
      catalog_version := params.catalog_version,
      catalog_content_hash := params.catalog_content_hash,
      request_nonce := params.request_nonce, pricing := pricing,
      platform_fee := platformFee, consumption := consumption }
  Except.ok
    { payload := payload,
      proof := { kid := params.signing_key_id,
                 sig := sign (canonicalJson payload) } }

/-- The `\x7b valid, error? \x7d` result of
`verifyConsumptionAttestation`. -/
structure ReceiptVerifyResult where
  valid : Bool
  error : Option String
deriving DecidableEq, Repr

/-- The `verifyConsumptionAttestation` from the commerce module: nonce echo
check (skipped for an absent or empty expected nonce, by JavaScript
truthiness), signature check over the re-serialized payload, then
recomputation of `cost_cents` (the per-minute branch is taken only when
`attestation.consumption.duration_ms` is truthy, i.e. present and
non-zero) and of `platform_fee_cents`. A `computePlatformFee` throw
propagates as `.error`. -/
def verifyConsumptionAttestation (attestation : ConsumptionAttestation)
    (expected_nonce : Option String) (gate_public_key : String)
    (verify : String → String → String → Bool) :
    Except CommerceError ReceiptVerifyResult :=
  let nonceMismatch : Bool :=
    match expected_nonce with
    | some e => e != "" && attestation.payload.request_nonce != some e
    | none => false
  if nonceMismatch then
    Except.ok { valid := false
                error := some "Request nonce mismatch - attestation may be fabricated" }
  else
    let payloadJson := canonicalJson attestation.payload
    if ¬(verify payloadJson attestation.proof.sig gate_public_key) then
      Except.ok { valid := false, error := some "Invalid signature" }
    else
      let pricing := attestation.payload.pricing
      let platformFee := attestation.payload.platform_fee
      let cons := attestation.payload.consumption
      let expectedCost :=
        match pricing.model, cons.duration_ms with
        | some .per_minute, some d =>
            if d ≠ 0 then computeTimeCost pricing d
            else computeCallCost pricing cons.units
        | _, _ => computeCallCost pricing cons.units
      if cons.cost_cents ≠ expectedCost then
        Except.ok { valid := false
                    error := some ("Cost mismatch: expected " ++
                      toString expectedCost ++ ", got " ++
                      toString cons.cost_cents) }
      else
        (match platformFee.basis_points with
         | some bp =>
             if bp = 0 then Except.ok 0 else computePlatformFee expectedCost bp
         | none => Except.ok 0).bind fun expectedFee =>
        if cons.platform_fee_cents ≠ expectedFee then
          Except.ok { valid := false
                      error := some ("Platform fee mismatch: expected " ++
                        toString expectedFee ++ ", got " ++
                        toString cons.platform_fee_cents) }
        else Except.ok { valid := true, error := none }

/-! ## Verification pipeline (verification module v1.2.0) -/

/-- The `DenyReason` from the protocol SDK (constructor names follow the enum
member names; the wire values are the snake-case denial codes such as
`issuer_not_allowed`). -/
inductive DenyReason where
  | PASSPORT_MISSING
  | ISSUER_NOT_ALLOWED
  | INVALID_SIGNATURE
  | PASSPORT_EXPIRED
  | PASSPORT_REVOKED
  | CATALOG_VERSION_DEPRECATED
  | PERMISSION_DENIED
  | CONSTRAINT_VIOLATED
  | APPROVAL_REQUIRED
  | RATE_LIMITED
deriving DecidableEq, Repr

/-- The three-tier constraint decision. -/
inductive ConstraintDecision where
  | PERMIT
  | SUSPEND
  | BLOCK
deriving DecidableEq, Repr

/-- The `OBLIGATION_TOKENS.REQUIRE_APPROVAL`. -/
def REQUIRE_APPROVAL : String := "require_approval"

/-- The `PassportPermission` from `src/types.ts`. -/
structure PassportPermission where
  permission_key : String
  constraints : CMap
deriving DecidableEq, Repr

/-- The `Passport` from `src/types.ts`. The RFC3339 timestamps `expires_at`
and `issued_at` are modelled by the absolute instants (epoch
milliseconds) that `new Date(...)` comparisons reduce to. -/
structure Passport where
  passport_id : String
  issuer_id : String
  agent_id : String
  gate_id : String
  permissions : List PassportPermission
  constraints : CMap
  signature : String
  expires_at : Int
  issued_at : Int
  catalog_version_pin : Option (List (String × Int))
  claimsByKey : List (String × PassportPermission)
deriving DecidableEq, Repr

/-- The `CatalogPermission` from `src/types.ts` (`description` omitted, never
read by the pipeline). -/
structure CatalogPermission where
  permission_key : String
  display_name : String
  risk_level : String
  constraints : CMap
  default_template : Option String
  required_constraints : Option (List String)
deriving DecidableEq, Repr

/-- The `CatalogVersion` from `src/types.ts`. -/
structure CatalogVersion where
  version : Int
  permissionsByKey : List (String × CatalogPermission)
  published_at : String
deriving DecidableEq, Repr

/-- The `CachedCatalog` from `src/types.ts`. -/
structure CachedCatalog where
  gate_id : String
  current : CatalogVersion
  versions : List (Int × CatalogVersion)
  min_compatible_version : Int
  cached_at : Int
  permissionsByKey : List (String × CatalogPermission)
deriving DecidableEq, Repr

/-- The `VerifyDenial` from `src/types.ts`. -/
structure VerifyDenial where
  code : DenyReason
  message : String
  upgrade_template : Option String
deriving DecidableEq, Repr

/-- The `VerifyResult` from `src/types.ts` (v1.2.0). -/
structure VerifyResult where
  allowed : Bool
  decision : String
  constraint_decision : Option ConstraintDecision
  reason_codes : Option (List String)
  obligations : Option (List String)
  denial : Option VerifyDenial
  effective_constraints : Option CMap
  confident : Bool
deriving DecidableEq, Repr

/-- The `deny(code, message, extras)` helper of the verification module
(v1.2.0, lines 303-326). -/
def denyR (code : DenyReason) (message : String)
    (upgrade_template : Option String)
    (constraint_decision : Option ConstraintDecision)
    (reason_codes : Option (List String))
    (obligations : Option (List String)) : VerifyResult :=
  { allowed := false
    decision := "deny"
    constraint_decision := constraint_decision
    reason_codes := reason_codes
    obligations := obligations
    denial := some { code := code, message := message,
                     upgrade_template := upgrade_template }
    effective_constraints := none
    confident := true }

/-- Result of `resolveCatalogVersion`: a catalog version or the
`\x7b deprecated: true \x7d` sentinel. -/
inductive ResolvedCatalog where
  | ok (v : CatalogVersion)
  | deprecated
deriving DecidableEq, Repr

/-- The `resolveCatalogVersion` from the verification module (v1.2.0, lines
274-297). -/
def resolveCatalogVersion (catalog : CachedCatalog)
    (passport : Option Passport) : ResolvedCatalog :=
  match passport with
  | none => .ok catalog.current
  | some pp =>
    match pp.catalog_version_pin with
    | none => .ok catalog.current
    | some pinMap =>
      match lookupA pinMap catalog.gate_id with
      | none => .ok catalog.current
      | some pin =>
        if pin < catalog.min_compatible_version then .deprecated
        else
          match lookupA catalog.versions pin with
          | some v => .ok v
          | none => .ok catalog.current

/-- Result record of `validateConstraints`. -/
structure ConstraintValidationResult where
  valid : Bool
  message : Option String
deriving DecidableEq, Repr

/-- JavaScript `Number(v)` coercion of a context value, `none` for `NaN`.
Numeric strings are covered for integer values (the only values the
integer model represents); a fractional or non-numeric string is `NaN`
in the model. -/
def jvalToNumber : JVal → Option Int
  | .num n => some n
  | .boolean b => some (if b then 1 else 0)
  | .nullV => some 0
  | .str s =>
    let t := trimChars s.data
    if t.isEmpty then some 0
    else
      match grammarSplit t with
      | some (neg, w, f) =>
          if f.isEmpty then some (applySign neg (digitsToNat w)) else none
      | none => none

/-- The `for (const [key, passportValue] of Object.entries(...))` loop of
`validateConstraints` (verification module v1.2.0, lines 204-231). -/
def validateConstraintsGo : List (String × JVal) → CMap →
    ConstraintValidationResult
  | [], _ => { valid := true, message := none }
  | (key, passportValue) :: rest, context =>
    match lookupA context key with
    | none => validateConstraintsGo rest context
    | some contextValue =>
      match CONSTRAINT_TYPES key, passportValue with
      | some .limit, .num n =>
        (match jvalToNumber contextValue with
         | none =>
             { valid := false
               message := some ("Invalid context value for " ++ key) }
         | some m =>
             if m > n then
               { valid := false
                 message := some ("Constraint " ++ key ++ " exceeded: " ++
                   toString m ++ " > " ++ toString n) }
             else validateConstraintsGo rest context)
      | _, _ => validateConstraintsGo rest context

/-- The `validateConstraints` from the verification module (v1.2.0, lines
199-234). The optional `catalogConstraints` parameter is accepted but
never read by the source body. -/
def validateConstraints (passportConstraints : CMap) (context : CMap)
    (_catalogConstraints : Option CMap) : ConstraintValidationResult :=
  validateConstraintsGo passportConstraints context

/-- One entry of `CELResult.evaluations`. -/
structure ConstraintEvaluation where
  decision : ConstraintDecision
  reason : Option String
deriving DecidableEq, Repr

/-- The `CELResult` from the protocol SDK (the fields `verifyLocally`
reads). -/
structure CELResult where
  decision : ConstraintDecision
  evaluations : List ConstraintEvaluation
  reason_codes : Option (List String)
  obligations : List String
deriving DecidableEq, Repr

/-- The `AnonymousAccessPolicy` from the protocol SDK. -/
structure AnonymousAccessPolicy where
  enabled : Bool
  allowed_actions : List String
  read_only : Bool
  rate_limit_per_minute : Option Int
  rate_limit_per_hour : Option Int
  upgrade_message : Option String
deriving DecidableEq, Repr

/-- A bucket of `InMemoryRateLimiter`. -/
structure RateLimitBucket where
  count : Int
  resetAt : Int
deriving DecidableEq, Repr

/-- The mutable state of `InMemoryRateLimiter`: the `buckets` and
`limits` maps. The wall clock read by `Date.now()` is passed explicitly
to the operations. -/
structure RateLimiterState where
  buckets : List (String × RateLimitBucket)
  limits : List (String × Int × Int)
deriving DecidableEq, Repr

/-- The `getBucketKey` from `InMemoryRateLimiter`. -/
def getBucketKey (action : String) (passportId : Option String) : String :=
  match passportId with
  | some p => action ++ ":" ++ p
  | none => action

/-- The `InMemoryRateLimiter.setLimit`. -/
def RateLimiterState.setLimit (s : RateLimiterState) (action : String)
    (mx windowMs : Int) : RateLimiterState :=
  { s with limits := setA s.limits action (mx, windowMs) }

/-- The `InMemoryRateLimiter.check`: true when no limit is configured, no
bucket exists or the bucket expired, otherwise `count < max`. -/
def RateLimiterState.check (s : RateLimiterState) (now : Int)
    (action : String) (passportId : Option String) : Bool :=
  match lookupA s.limits action with
  | none => true
  | some (mx, _) =>
    match lookupA s.buckets (getBucketKey action passportId) with
    | none => true
    | some bucket =>
      if bucket.resetAt ≤ now then true else decide (bucket.count < mx)

/-- The `InMemoryRateLimiter.increment`: no-op without a configured limit;
otherwise create or reset the bucket with count 1, or bump the live
bucket. -/
def RateLimiterState.increment (s : RateLimiterState) (now : Int)
    (action : String) (passportId : Option String) : RateLimiterState :=
  match lookupA s.limits action with
  | none => s
  | some (_, windowMs) =>
    let key := getBucketKey action passportId
    match lookupA s.buckets key with
    | none =>
      { s with buckets :=
          (setA s.buckets key { count := 1, resetAt := now + windowMs }) }
    | some bucket =>
      if bucket.resetAt ≤ now then
        { s with buckets :=
            (setA s.buckets key { count := 1, resetAt := now + windowMs }) }
      else
        { s with buckets :=
            (setA s.buckets key { bucket with count := bucket.count + 1 }) }

/-- The `VerifyLocallyParams` from the verification module (v1.2.0). The
`rateLimiter`, the external callbacks and the clock are passed to
`verifyLocally` separately. -/
structure VerifyLocallyParams where
  passport : Option Passport
  catalog : CachedCatalog
  revocationList : List String
  issuerKeys : List (String × String)
  action : String
  context : CMap
  skipSignatureVerification : Bool
  anonymousPolicy : Option AnonymousAccessPolicy
  sourceId : Option String
deriving DecidableEq, Repr

/-- The `verifyLocally` from the verification module (v1.2.0, lines 369-574).

* `verifySig` models `verifySignatureSync` (total: it absorbs every
  exception into `false`); it receives the passport and the issuer key.
* `cel` models the protocol SDK function `evaluateConstraints`, applied to the
  effective constraints, the action, the `costCents` extracted from
  the `amount_canonical` context entry, and the context as metadata.
* `anonEval` models `evaluateAnonymousAccess(...)?.allowed`, applied to
  the policy, the action and the source id (the limiter defaulting is
  internal to that call).
* `now` is the instant read by `new Date()` / `Date.now()` during the
  call.
* The rate-limiter state is threaded explicitly: the returned state is
  the state after the call. -/
def verifyLocally (verifySig : Passport → String → Bool)
    (cel : CMap → String → Option Int → CMap → CELResult)
    (anonEval : AnonymousAccessPolicy → String → String → Bool)
    (now : Int) (params : VerifyLocallyParams)
    (rateLimiter : RateLimiterState) : VerifyResult × RateLimiterState :=
  match params.passport with
  | none =>
    (match params.anonymousPolicy with
     | some pol =>
       if pol.enabled then
         if anonEval pol params.action (params.sourceId.getD "unknown") then
           ({ allowed := true
              decision := "permit"
              constraint_decision := none
              reason_codes := none
              obligations := none
              denial := none
              effective_constraints := none
              confident := true }, rateLimiter)
         else
           (denyR .PASSPORT_MISSING
             (pol.upgrade_message.getD
               "Get a passport for full access and higher rate limits")
             none none none none, rateLimiter)
       else
         (denyR .PASSPORT_MISSING "No passport in session"
           none none none none, rateLimiter)
     | none =>
       (denyR .PASSPORT_MISSING "No passport in session"
         none none none none, rateLimiter))
  | some passport =>
    match lookupA params.issuerKeys passport.issuer_id with
    | none =>
      (denyR .ISSUER_NOT_ALLOWED ("Unknown issuer: " ++ passport.issuer_id)
        none (some .BLOCK) none none, rateLimiter)
    | some issuerKey =>
      if ¬params.skipSignatureVerification ∧ ¬verifySig passport issuerKey then
        (denyR .INVALID_SIGNATURE "Passport signature invalid"
          none (some .BLOCK) none none, rateLimiter)
      else if passport.expires_at < now then
        (denyR .PASSPORT_EXPIRED "Passport has expired"
          none (some .BLOCK) none none, rateLimiter)
      else if passport.passport_id ∈ params.revocationList then
        (denyR .PASSPORT_REVOKED "Passport has been revoked"
          none (some .BLOCK) none none, rateLimiter)
      else
        match resolveCatalogVersion params.catalog (some passport) with
        | .deprecated =>
          (denyR .CATALOG_VERSION_DEPRECATED
            "Passport pins to deprecated catalog version"
            none (some .BLOCK) none none, rateLimiter)
        | .ok effectiveCatalog =>
          match lookupA effectiveCatalog.permissionsByKey params.action with
          | none =>
            (denyR .PERMISSION_DENIED (params.action ++ " not in gate catalog")
              none (some .BLOCK) none none, rateLimiter)
          | some catalogEntry =>
            match lookupA passport.claimsByKey params.action with
            | none =>
              (denyR .PERMISSION_DENIED
                ("Passport lacks " ++ params.action ++ " permission")
                catalogEntry.default_template (some .BLOCK) none none,
               rateLimiter)
            | some passportPermission =>
              let effectiveConstraints := mergeConstraints
                catalogEntry.constraints passportPermission.constraints
              let costCents :=
                match lookupA params.context "amount_canonical" with
                | some (.num n) => some n
                | _ => none
              let celResult :=
                cel effectiveConstraints params.action costCents params.context
              if celResult.decision = .BLOCK then
                let blockMsg :=
                  match celResult.evaluations.find?
                      (fun e => e.decision == .BLOCK) with
                  | some e => e.reason.getD "Constraint violation"
                  | none => "Constraint violation"
                (denyR .CONSTRAINT_VIOLATED blockMsg
                  none (some .BLOCK) none none, rateLimiter)
              else if celResult.decision = .SUSPEND then
                (denyR .APPROVAL_REQUIRED
                  "Action requires approval before proceeding"
                  none (some .SUSPEND)
                  (some (celResult.reason_codes.getD ["approval_required"]))
                  (some (if celResult.obligations.length > 0 then
                    celResult.obligations else [REQUIRE_APPROVAL])),
                 rateLimiter)
              else
                let legacyResult := validateConstraints
                  passportPermission.constraints params.context
                  (some catalogEntry.constraints)
                if legacyResult.valid = false then
                  (denyR .CONSTRAINT_VIOLATED
                    (legacyResult.message.getD "Constraint validation failed")
                    none (some .BLOCK) none none, rateLimiter)
                else if rateLimiter.check now params.action
                    (some passport.passport_id) = false then
                  (denyR .RATE_LIMITED "Rate limit exceeded"
                    none (some .BLOCK) none none, rateLimiter)
                else
                  ({ allowed := true
                     decision := "permit"
                     constraint_decision := some .PERMIT
                     reason_codes := none
                     obligations := none
                     denial := none
                     effective_constraints := some effectiveConstraints
                     confident := true },
                   rateLimiter.increment now params.action
                     (some passport.passport_id))

/-! ## Concrete fixtures used by witnesses and counterexamples

These mirror the fixtures of the verification tests in the repository
(`createMockPassport` / `createMockCatalog`). -/

/-- A CEL callback that always permits (no constraint keys trigger). -/
def celPermit : CMap → String → Option Int → CMap → CELResult :=
  fun _ _ _ _ =>
    { decision := .PERMIT, evaluations := [], reason_codes := none,
      obligations := [] }

/-- An anonymous-access evaluation that allows exactly the listed
actions (the behavior the tests of the repository exercise). -/
def anonAllowListed : AnonymousAccessPolicy → String → String → Bool :=
  fun pol action _ => pol.allowed_actions.contains action

/-- A signature callback that accepts everything (the fixtures use mock
signatures and the tests run with signature verification succeeding or
skipped). -/
def sigAlwaysValid : Passport → String → Bool := fun _ _ => true

def fixturePermission : PassportPermission :=
  { permission_key := "flights:search", constraints := [] }

def fixturePassport : Passport :=
  { passport_id := "passport_test_123"
    issuer_id := "issuer_trusted"
    agent_id := "agent_test"
    gate_id := "gate_test"
    permissions := [fixturePermission]
    constraints := []
    signature := "00"
    expires_at := 1000
    issued_at := 0
    catalog_version_pin := none
    claimsByKey := [("flights:search", fixturePermission)] }

def fixtureCatalogPermission : CatalogPermission :=
  { permission_key := "flights:search"
    display_name := "Search Flights"
    risk_level := "low"
    constraints := []
    default_template := none
    required_constraints := none }

def fixtureCatalogVersion : CatalogVersion :=
  { version := 1
    permissionsByKey := [("flights:search", fixtureCatalogPermission)]
    published_at := "2026-01-01T00:00:00Z" }

def fixtureCatalog : CachedCatalog :=
  { gate_id := "gate_test"
    current := fixtureCatalogVersion
    versions := []
    min_compatible_version := 1
    cached_at := 0
    permissionsByKey := fixtureCatalogVersion.permissionsByKey }

/-- Parameters of a straight-through permit call whose passport expires
exactly at the instant the call is made (`expires_at = 1000 = now`). -/
def fixtureParams : VerifyLocallyParams :=
  { passport := some fixturePassport
    catalog := fixtureCatalog
    revocationList := []
    issuerKeys := [("issuer_trusted", "KEY")]
    action := "flights:search"
    context := []
    skipSignatureVerification := false
    anonymousPolicy := none
    sourceId := none }

/-- Rate limiter with no configured limits. -/
def emptyRL : RateLimiterState := { buckets := [], limits := [] }

def fixtureAnonPolicy : AnonymousAccessPolicy :=
  { enabled := true
    allowed_actions := ["data:read"]
    read_only := true
    rate_limit_per_minute := some 5
    rate_limit_per_hour := some 50
    upgrade_message := none }

/-- Parameters of an anonymous call (no passport) for an action allowed
by the anonymous policy. -/
def fixtureAnonParams : VerifyLocallyParams :=
  { passport := none
    catalog := fixtureCatalog
    revocationList := []
    issuerKeys := []
    action := "data:read"
    context := []
    skipSignatureVerification := false
    anonymousPolicy := some fixtureAnonPolicy
    sourceId := some "client" }

/-- Rate limiter that has a limit registered for the action of the
anonymous call, so that any increment would change the state. -/
def fixtureAnonRL : RateLimiterState :=
  { buckets := [], limits := [("data:read", (2, 60000))] }

/-- Scenario E issuance parameters: `pricing.per_call_cents = 10`,
`platform_fee.basis_points = 200`. -/
def scenarioEParams : IssueReceiptParams :=
  { gate_id := "gate_test"
    agent_id := "agent_1"
    passport_id := "passport_test_123"
    permission_key := "flights:search"
    catalog_version := 1
    catalog_content_hash := none
    effective_constraints :=
      [("core:pricing:per_call_cents", JVal.num 10),
       ("core:platform_fee:basis_points", JVal.num 200)]
    request_nonce := some "nonce_1"
    units := none
    duration_ms := none
    signing_key_id := "key_1" }

/-- Issuance parameters with per-minute pricing, a non-zero per-call
price and a zero duration: the input on which issue and verify disagree
about the cost branch. -/
def zeroDurationParams : IssueReceiptParams :=
  { gate_id := "gate_test"
    agent_id := "agent_1"
    passport_id := "passport_test_123"
    permission_key := "flights:search"
    catalog_version := 1
    catalog_content_hash := none
    effective_constraints :=
      [("core:pricing:per_call_cents", JVal.num 5),
       ("core:pricing:per_minute_cents", JVal.num 10),
       ("core:pricing:model", JVal.str "per_minute")]
    request_nonce := some "nonce_1"
    units := none
    duration_ms := some 0
    signing_key_id := "key_1" }

/-- A signing callback and the verification callback that accepts
exactly its signatures over the same bytes. -/
def fixtureSign : String → String := fun payload => "SIG:" ++ payload

def fixtureVerify : String → String → String → Bool :=
  fun payload sig _ => sig == "SIG:" ++ payload

/-! ## Supporting lemmas for the decimal normalizer -/

theorem digitsToNat_shift (b : List Char) (acc : Nat) :
    b.foldl (fun a c => 10 * a + digitVal c) acc =
      acc * 10 ^ b.length + digitsToNat b := by
  induction b generalizing acc with
  | nil => simp [digitsToNat]
  | cons c t ih =>
    simp only [List.foldl_cons, List.length_cons, digitsToNat]
    rw [ih (10 * acc + digitVal c), ih (10 * 0 + digitVal c)]
    ring

theorem digitsToNat_append (a b : List Char) :
    digitsToNat (a ++ b) = digitsToNat a * 10 ^ b.length + digitsToNat b := by
  unfold digitsToNat
  rw [List.foldl_append, digitsToNat_shift]
  rfl

theorem digitsToNat_replicate_zero (k : Nat) :
    digitsToNat (List.replicate k '0') = 0 := by
  induction k with
  | zero => rfl
  | succ n ih =>
    rw [List.replicate_succ', digitsToNat_append, ih]
    rfl

theorem padEndTake_of_le {d : List Char} {P : Nat} (h : d.length ≤ P) :
    padEndTake d P = d ++ List.replicate (P - d.length) '0' := by
  unfold padEndTake
  apply List.take_of_length_le
  rw [List.length_append, List.length_replicate]
  omega

theorem digitsToNat_padEndTake {d : List Char} {P : Nat} (h : d.length ≤ P) :
    digitsToNat (padEndTake d P) = digitsToNat d * 10 ^ (P - d.length) := by
  rw [padEndTake_of_le h, digitsToNat_append, List.length_replicate,
    digitsToNat_replicate_zero]
  ring

theorem isWS_eq_false_of_isDigit {c : Char} (h : c.isDigit = true) :
    isWS c = false := by
  by_contra hws
  rw [Bool.not_eq_false] at hws
  simp only [isWS, Bool.or_eq_true, beq_iff_eq] at hws
  rcases hws with ((rfl | rfl) | rfl) | rfl <;> exact absurd h (by decide)

theorem dropWhile_eq_self_of_no_ws {l : List Char}
    (h : ∀ c ∈ l, isWS c = false) : l.dropWhile isWS = l := by
  cases l with
  | nil => rfl
  | cons a t =>
    rw [List.dropWhile_cons, h a (List.mem_cons_self a t)]
    simp

theorem trimChars_eq_self_of_no_ws {cs : List Char}
    (h : ∀ c ∈ cs, isWS c = false) : trimChars cs = cs := by
  unfold trimChars
  rw [dropWhile_eq_self_of_no_ws h,
    dropWhile_eq_self_of_no_ws (fun c hc => h c (List.mem_reverse.mp hc)),
    List.reverse_reverse]

theorem grammarSplit_no_ws {cs : List Char} {x : Bool × List Char × List Char}
    (h : grammarSplit cs = some x) : ∀ c ∈ cs, isWS c = false := by
  intro c hc
  unfold grammarSplit at h
  set rest := stripSign cs with hrest
  set w := rest.takeWhile Char.isDigit with hw
  set r := rest.dropWhile Char.isDigit with hr
  by_cases hemp : w.isEmpty = true
  · rw [if_pos hemp] at h; exact absurd h (by simp)
  · rw [if_neg hemp] at h
    have hwd : ∀ a ∈ w, Char.isDigit a = true := fun a ha =>
      List.mem_takeWhile_imp (hw ▸ ha)
    have hsplit : w ++ r = rest := by
      rw [hw, hr]; exact List.takeWhile_append_dropWhile _ _
    have hrmem : ∀ a ∈ r, isWS a = false := by
      intro a ha
      by_cases h2 : r.isEmpty = true
      · rw [List.isEmpty_iff.mp h2] at ha
        exact absurd ha (List.not_mem_nil a)
      · rw [if_neg h2] at h
        by_cases h3 : r.head? = some '.' ∧ r.tail.isEmpty = false ∧
            r.tail.all Char.isDigit = true
        · obtain ⟨h31, _, h33⟩ := h3
          cases hrc : r with
          | nil => rw [hrc] at ha; exact absurd ha (List.not_mem_nil a)
          | cons b t =>
            have hb : b = '.' := by
              rw [hrc] at h31; exact (Option.some_inj.mp h31.symm).symm
            rw [hrc] at ha
            rcases List.mem_cons.mp ha with rfl | hat
            · rw [hb]; decide
            · have : r.tail = t := by simp [hrc]
              exact isWS_eq_false_of_isDigit
                ((List.all_eq_true.mp (this ▸ h33)) a hat)
        · rw [if_neg h3] at h; exact absurd h (by simp)
    have hrestmem : ∀ a ∈ rest, isWS a = false := by
      intro a ha
      rcases List.mem_append.mp (hsplit ▸ ha) with haw | har
      · exact isWS_eq_false_of_isDigit (hwd a haw)
      · exact hrmem a har
    cases cs with
    | nil => exact absurd hc (List.not_mem_nil c)
    | cons a t =>
      by_cases hsgn : a = '+' ∨ a = '-'
      · have hre : rest = t := by rw [hrest]; simp [stripSign, hsgn]
        rcases List.mem_cons.mp hc with rfl | hct
        · rcases hsgn with rfl | rfl <;> decide
        · exact hrestmem c (hre ▸ hct)
      · have hre : rest = a :: t := by rw [hrest]; simp [stripSign, hsgn]
        exact hrestmem c (hre ▸ hc)

theorem grammarSplit_trim {cs : List Char} {x : Bool × List Char × List Char}
    (h : grammarSplit cs = some x) : trimChars cs = cs :=
  trimChars_eq_self_of_no_ws (grammarSplit_no_ws h)

theorem padEndTake_take {f : List Char} {P : Nat} (h : P ≤ f.length) :
    padEndTake (f.take P) P = f.take P := by
  have hl : (f.take P).length = P := by
    rw [List.length_take]; omega
  rw [padEndTake_of_le (le_of_eq hl), hl]
  simp

/-- C1: for every input matching the decimal grammar, every precision and
every mode, `transformToCanonical` behaves as specified: `strict` fails
with `precision_exceeded` when the fraction is longer than the precision,
`truncate` keeps the first `P` fractional digits, `round` adds one to the
magnitude when the `(P+1)`-th fractional digit is at least 5
(half-away-from-zero), short fractions give exactly `value * 10 ^ P`
computed in arbitrary precision (`(w * 10 ^ |f|  + f) * 10 ^ (P - |f|)`
over the digit values), the sign is applied to the magnitude, and the
result passes the inclusive `2 ^ 53 - 1` safe-range check, failing with
`overflow` outside it; and all nine reference vectors hold. -/
theorem C1_decimal_normalizer :
    (∀ (s : String) (P : Nat) (mode : TransformMode) (neg : Bool)
        (w f : List Char),
      grammarSplit s.data = some (neg, w, f) →
      ((mode = .strict → f.length > P →
          transformToCanonical s P mode = .error .precisionExceeded) ∧
       (mode = .truncate → f.length > P →
          transformToCanonical s P mode =
            checkSafeRange (applySign neg
              (digitsToNat w * 10 ^ P + digitsToNat (f.take P)))) ∧
       (mode = .round → f.length > P →
          transformToCanonical s P mode =
            checkSafeRange (applySign neg
              (digitsToNat w * 10 ^ P + digitsToNat (f.take P) +
                (if 5 ≤ digitVal (f.getD P '0') then 1 else 0)))) ∧
       (f.length ≤ P →
          transformToCanonical s P mode =
            checkSafeRange (applySign neg
              ((digitsToNat w * 10 ^ f.length + digitsToNat f) *
                10 ^ (P - f.length)))))) ∧
    transformToCanonical "1.00" 2 .strict = .ok 100 ∧
    transformToCanonical "1.005" 2 .strict = .error .precisionExceeded ∧
    transformToCanonical "1.005" 2 .round = .ok 101 ∧
    transformToCanonical "1.005" 2 .truncate = .ok 100 ∧
    transformToCanonical "-1.005" 2 .round = .ok (-101) ∧
    transformToCanonical "4.99" 2 .strict = .ok 499 ∧
    transformToCanonical "0.00000001" 8 .strict = .ok 1 ∧
    transformToCanonical "90071992547409.91" 2 .strict = .ok 9007199254740991 ∧
    transformToCanonical "90071992547409.92" 2 .strict = .error .overflow := by
  refine ⟨?_, rfl, rfl, rfl, rfl, rfl, rfl, rfl, rfl, rfl⟩
  intro s P mode neg w f hp
  have htrim : trimChars s.data = s.data := grammarSplit_trim hp
  have hbase : transformToCanonical s P mode =
      (match (if f.length > P then
        match mode with
        | .strict => Except.error TransformError.precisionExceeded
        | .truncate => Except.ok (digitsToNat w * 10 ^ P +
            digitsToNat (padEndTake (f.take P) P))
        | .round => Except.ok (if digitVal (f.getD P '0') ≥ 5 then
            digitsToNat w * 10 ^ P + digitsToNat (padEndTake (f.take P) P) + 1
            else digitsToNat w * 10 ^ P + digitsToNat (padEndTake (f.take P) P))
        else Except.ok (digitsToNat w * 10 ^ P +
          digitsToNat (padEndTake f P)) : Except TransformError Nat) with
      | .error e => .error e
      | .ok m => checkSafeRange (applySign neg m)) := by
    unfold transformToCanonical
    simp only [htrim, hp]
  refine ⟨?_, ?_, ?_, ?_⟩
  · rintro rfl hlen
    rw [hbase, if_pos hlen]
  · rintro rfl hlen
    rw [hbase, if_pos hlen, padEndTake_take (le_of_lt hlen)]
  · rintro rfl hlen
    rw [hbase, if_pos hlen, padEndTake_take (le_of_lt hlen)]
    by_cases h5 : 5 ≤ digitVal (f.getD P '0')
    · rw [if_pos (by omega : digitVal (f.getD P '0') ≥ 5), if_pos h5]
    · rw [if_neg (by omega : ¬digitVal (f.getD P '0') ≥ 5), if_neg h5]
      simp
  · intro hlen
    rw [hbase, if_neg (by omega : ¬f.length > P),
      digitsToNat_padEndTake hlen]
    have hpow : (10 : Nat) ^ P = 10 ^ f.length * 10 ^ (P - f.length) := by
      rw [← pow_add]
      congr 1
      omega
    rw [hpow]
    ring_nf

/-- Witness for C1: the general characterization applied at the concrete
input "12.5" with precision 3 in strict mode. -/
theorem C1_decimal_normalizer_witness :
    transformToCanonical "12.5" 3 .strict =
      checkSafeRange (applySign false
        ((digitsToNat ['1', '2'] * 10 ^ (['5'] : List Char).length +
          digitsToNat ['5']) * 10 ^ (3 - (['5'] : List Char).length))) :=
  (C1_decimal_normalizer.1 "12.5" 3 .strict false ['1', '2'] ['5'] rfl).2.2.2
    (by decide)

/-! ## Supporting lemmas for the constraint merge -/

theorem lookupA_setA_self {κ α : Type} [DecidableEq κ]
    (m : List (κ × α)) (k : κ) (v : α) : lookupA (setA m k v) k = some v := by
  induction m with
  | nil => simp [setA, lookupA]
  | cons e t ih =>
    by_cases h : e.1 = k
    · simp [setA, lookupA, h]
    · simp [setA, lookupA, h, ih]

theorem lookupA_setA_ne {κ α : Type} [DecidableEq κ]
    (m : List (κ × α)) {k k' : κ} (v : α) (h : k ≠ k') :
    lookupA (setA m k v) k' = lookupA m k' := by
  induction m with
  | nil => simp [setA, lookupA, h]
  | cons e t ih =>
    by_cases he : e.1 = k
    · simp [setA, lookupA, he, h]
    · simp [setA, lookupA, he, ih]

theorem lookupA_eq_none_forall {κ α : Type} [DecidableEq κ]
    {m : List (κ × α)} {k : κ} (h : lookupA m k = none) :
    ∀ e ∈ m, e.1 ≠ k := by
  induction m with
  | nil => intro e he; exact absurd he (List.not_mem_nil e)
  | cons e t ih =>
    intro f hf
    by_cases he : e.1 = k
    · rw [lookupA, if_pos he] at h; exact absurd h (by simp)
    · rw [lookupA, if_neg he] at h
      rcases List.mem_cons.mp hf with rfl | hft
      · exact he
      · exact ih h f hft

theorem lookupA_mergeStep_self (m : CMap) (key : String) (pv : JVal) :
    lookupA (mergeStep m key pv) key =
      mergeKeyResult (lookupA m key) key pv := by
  rcases h1 : CONSTRAINT_TYPES key with _ | ct
  · cases pv <;> simp [mergeStep, mergeKeyResult, h1, lookupA_setA_self]
  · cases ct with
    | term => cases pv <;> simp [mergeStep, mergeKeyResult, h1]
    | limit =>
      cases pv with
      | num n =>
        rcases h2 : lookupA m key with _ | v
        · simp [mergeStep, mergeKeyResult, h1, h2, lookupA_setA_self]
        · cases v <;>
            simp [mergeStep, mergeKeyResult, h1, h2, lookupA_setA_self]
      | str s => simp [mergeStep, mergeKeyResult, h1, lookupA_setA_self]
      | boolean b => simp [mergeStep, mergeKeyResult, h1, lookupA_setA_self]
      | nullV => simp [mergeStep, mergeKeyResult, h1, lookupA_setA_self]

theorem lookupA_mergeStep_ne (m : CMap) {key k : String} (pv : JVal)
    (h : key ≠ k) : lookupA (mergeStep m key pv) k = lookupA m k := by
  rcases h1 : CONSTRAINT_TYPES key with _ | ct
  · cases pv <;> simp [mergeStep, h1, lookupA_setA_ne _ _ h]
  · cases ct with
    | term => cases pv <;> simp [mergeStep, h1]
    | limit =>
      cases pv with
      | num n =>
        rcases h2 : lookupA m key with _ | v
        · simp [mergeStep, h1, h2, lookupA_setA_ne _ _ h]
        · cases v <;> simp [mergeStep, h1, h2, lookupA_setA_ne _ _ h]
      | str s => simp [mergeStep, h1, lookupA_setA_ne _ _ h]
      | boolean b => simp [mergeStep, h1, lookupA_setA_ne _ _ h]
      | nullV => simp [mergeStep, h1, lookupA_setA_ne _ _ h]

theorem merge_fold_frame (Y : CMap) (m : CMap) (k : String)
    (h : ∀ e ∈ Y, e.1 ≠ k) :
    lookupA (Y.foldl (fun merged e => mergeStep merged e.1 e.2) m) k =
      lookupA m k := by
  induction Y generalizing m with
  | nil => rfl
  | cons e t ih =>
    rw [List.foldl_cons,
      ih (mergeStep m e.1 e.2) (fun f hf => h f (List.mem_cons_of_mem e hf)),
      lookupA_mergeStep_ne m e.2 (h e (List.mem_cons_self e t))]

theorem merge_fold_hit (Y : CMap) (m : CMap) (k : String) (vy : JVal)
    (hnd : (Y.map Prod.fst).Nodup) (hk : lookupA Y k = some vy) :
    lookupA (Y.foldl (fun merged e => mergeStep merged e.1 e.2) m) k =
      mergeKeyResult (lookupA m k) k vy := by
  induction Y generalizing m with
  | nil => exact absurd hk (by simp [lookupA])
  | cons e t ih =>
    rw [List.map_cons, List.nodup_cons] at hnd
    rw [List.foldl_cons]
    by_cases he : e.1 = k
    · rw [lookupA, if_pos he] at hk
      have hvy : e.2 = vy := Option.some_inj.mp hk
      have hnot : ∀ f ∈ t, f.1 ≠ k := by
        intro f hf hfk
        have hmem : f.1 ∈ t.map Prod.fst := List.mem_map_of_mem Prod.fst hf
        rw [hfk, ← he] at hmem
        exact hnd.1 hmem
      rw [merge_fold_frame t _ k hnot, ← he, ← hvy,
        lookupA_mergeStep_self m e.1 e.2]
    · rw [lookupA, if_neg he] at hk
      rw [ih (mergeStep m e.1 e.2) hnd.2 hk,
        lookupA_mergeStep_ne m e.2 he]

/-- C4: the constraint merge equations. For a registered limit key
present with numeric values on both sides the merged value is the
minimum; a key absent from the credential side keeps the catalog value;
a limit key present only on the credential side takes the credential
value; a term key always resolves to the catalog side (the credential
value is discarded); an unregistered key passes the credential value
through. -/
theorem C4_merge_equations :
    ∀ (X Y : CMap) (k : String), (Y.map Prod.fst).Nodup →
      ((∀ a b : Int, CONSTRAINT_TYPES k = some .limit →
          lookupA X k = some (.num a) → lookupA Y k = some (.num b) →
          lookupA (mergeConstraints X Y) k = some (.num (min a b))) ∧
       (∀ b : Int, CONSTRAINT_TYPES k = some .limit →
          lookupA X k = none → lookupA Y k = some (.num b) →
          lookupA (mergeConstraints X Y) k = some (.num b)) ∧
       (lookupA Y k = none →
          lookupA (mergeConstraints X Y) k = lookupA X k) ∧
       (CONSTRAINT_TYPES k = some .term →
          lookupA (mergeConstraints X Y) k = lookupA X k) ∧
       (∀ v : JVal, CONSTRAINT_TYPES k = none → lookupA Y k = some v →
          lookupA (mergeConstraints X Y) k = some v)) := by
  intro X Y k hnd
  refine ⟨?_, ?_, ?_, ?_, ?_⟩
  · intro a b hty hx hy
    rw [mergeConstraints, merge_fold_hit Y X k _ hnd hy, hx]
    simp [mergeKeyResult, hty]
  · intro b hty hx hy
    rw [mergeConstraints, merge_fold_hit Y X k _ hnd hy, hx]
    simp [mergeKeyResult, hty]
  · intro hy
    exact merge_fold_frame Y X k (lookupA_eq_none_forall hy)
  · intro hty
    rcases hy : lookupA Y k with _ | vy
    · exact merge_fold_frame Y X k (lookupA_eq_none_forall hy)
    · rw [mergeConstraints, merge_fold_hit Y X k vy hnd hy]
      cases vy <;> simp [mergeKeyResult, hty]
  · intro v hty hy
    rw [mergeConstraints, merge_fold_hit Y X k v hnd hy]
    cases v <;> simp [mergeKeyResult, hty]

/-- Witness for C4: the merge equations at the Scenario B maps
(catalog limit 500000, credential limit 100000). -/
theorem C4_merge_equations_witness :
    lookupA
      (mergeConstraints [("core:cost:max_per_action", JVal.num 500000)]
        [("core:cost:max_per_action", JVal.num 100000)])
      "core:cost:max_per_action" = some (JVal.num (min 500000 100000)) :=
  (C4_merge_equations [("core:cost:max_per_action", JVal.num 500000)]
    [("core:cost:max_per_action", JVal.num 100000)]
    "core:cost:max_per_action" (by simp)).1 500000 100000
    (by decide) (by decide) (by decide)

/-- Counterexample for C5: `core:cost:max_per_action` is a registered
limit key, yet a credential that carries the non-numeric value
`"unbounded"` for it is merged without any error: the string is passed
through into the effective constraints. `mergeConstraints` is total (its
result type has no error case), so the merge never fails with
`constraint_type_error`. -/
theorem C5_counterexample :
    CONSTRAINT_TYPES "core:cost:max_per_action" = some .limit ∧
    lookupA
      (mergeConstraints []
        [("core:cost:max_per_action", JVal.str "unbounded")])
      "core:cost:max_per_action" = some (JVal.str "unbounded") :=
  ⟨rfl, rfl⟩

/-- C5 as amended: a registered limit key carrying a non-numeric
credential value is not rejected — the merge is total and the
credential value is passed through into the merged constraints exactly
like the value of an unregistered key. -/
theorem C5_non_numeric_limit_passthrough :
    ∀ (X Y : CMap) (k : String) (v : JVal), (Y.map Prod.fst).Nodup →
      CONSTRAINT_TYPES k = some .limit → JVal.isNum v = false →
      lookupA Y k = some v →
      lookupA (mergeConstraints X Y) k = some v := by
  intro X Y k v hnd hty hnum hy
  rw [mergeConstraints, merge_fold_hit Y X k v hnd hy]
  cases v with
  | num n => exact absurd hnum (by simp [JVal.isNum])
  | str s => simp [mergeKeyResult, hty]
  | boolean b => simp [mergeKeyResult, hty]
  | nullV => simp [mergeKeyResult, hty]

/-- Witness for C5 (amended): the pass-through at the concrete
counterexample input. -/
theorem C5_non_numeric_limit_passthrough_witness :
    lookupA
      (mergeConstraints []
        [("core:cost:max_per_action", JVal.str "unbounded")])
      "core:cost:max_per_action" = some (JVal.str "unbounded") :=
  C5_non_numeric_limit_passthrough []
    [("core:cost:max_per_action", JVal.str "unbounded")]
    "core:cost:max_per_action" (JVal.str "unbounded")
    (by simp) (by decide) (by decide) (by decide)

/-! ## Supporting lemmas for the commerce functions -/

theorem mathCeilDiv_eq_ceil (a : ℤ) (d : ℕ) (_hd : 0 < d) :
    mathCeilDiv a (d : ℤ) = ⌈(a : ℚ) / (d : ℚ)⌉ := by
  have h2 : ⌊((-a : ℤ) : ℚ) / ((d : ℕ) : ℚ)⌋ = (-a) / (d : ℤ) :=
    Rat.floor_intCast_div_natCast (-a) d
  have h4 : ((-a : ℤ) : ℚ) / ((d : ℕ) : ℚ) = -((a : ℚ) / (d : ℚ)) := by
    push_cast
    ring
  rw [mathCeilDiv, ← h2, h4, Int.floor_neg]
  ring

set_option maxRecDepth 10000 in
/-- C7: platform-fee and cost arithmetic. The fee is the exact ceiling
of `cost * basis_points / 10000`; per-call cost is
`per_call_cents * units`; per-minute cost is
`per_minute_cents * ceil(duration_ms / 60000)`; and the Scenario E
issuance (`per_call_cents = 10`, `basis_points = 200`) yields
`cost_cents = 10` and `platform_fee_cents = 1`. -/
theorem C7_receipt_cost_arithmetic :
    (∀ a b : Int, 0 ≤ a → 0 ≤ b →
       computePlatformFee a b = .ok ⌈(a : ℚ) * (b : ℚ) / 10000⌉) ∧
    (∀ (pricing : PricingConstraints) (p units : Int),
       pricing.per_call_cents = some p →
       computeCallCost pricing units = p * units) ∧
    (∀ (pricing : PricingConstraints) (p d : Int),
       pricing.per_minute_cents = some p →
       computeTimeCost pricing d = p * ⌈(d : ℚ) / 60000⌉) ∧
    (issueConsumptionAttestation scenarioEParams fixtureSign "catt_1"
        "2026-01-01T00:00:00Z").map
      (fun att => (att.payload.consumption.cost_cents,
        att.payload.consumption.platform_fee_cents)) = .ok (10, 1) := by
  refine ⟨?_, ?_, ?_, rfl⟩
  · intro a b ha hb
    rw [computePlatformFee, if_neg (by omega), if_neg (by omega)]
    have h := mathCeilDiv_eq_ceil (a * b) 10000 (by norm_num)
    push_cast at h
    rw [h]
  · intro pricing p units hp
    simp [computeCallCost, hp]
  · intro pricing p d hp
    simp only [computeTimeCost, hp]
    have h := mathCeilDiv_eq_ceil d 60000 (by norm_num)
    push_cast at h
    rw [h]

/-- Witness for C7: the fee formula applied at the Scenario E numbers. -/
theorem C7_receipt_cost_arithmetic_witness :
    computePlatformFee 10 200 = .ok ⌈(10 : ℚ) * (200 : ℚ) / 10000⌉ :=
  C7_receipt_cost_arithmetic.1 10 200 (by norm_num) (by norm_num)

set_option maxRecDepth 10000 in
/-- C6 (code bug evaluation): issuing a receipt with per-minute pricing,
a non-zero `per_call_cents` and `duration_ms = 0` and verifying it with
the matching nonce and a verification callback that accepts exactly the
signatures of the issuer does NOT return valid: the issuer computes the
per-minute cost (0 for a zero duration, via `duration_ms !== undefined`)
while the truthiness test `attestation.consumption.duration_ms` in the verifier
skips the per-minute branch for the falsy value 0 and recomputes the
per-call cost (5), so verification fails with a cost mismatch. The same
round trip with `duration_ms = 60000` is valid. -/
theorem C6_receipt_roundtrip_zero_duration :
    ((issueConsumptionAttestation zeroDurationParams fixtureSign "catt_0"
        "2026-01-01T00:00:00Z").bind
      (fun att => verifyConsumptionAttestation att (some "nonce_1")
        "gate_pub_key" fixtureVerify)) =
      .ok { valid := false
            error := some "Cost mismatch: expected 5, got 0" } ∧
    ((issueConsumptionAttestation
        { zeroDurationParams with duration_ms := some 60000 } fixtureSign
        "catt_0" "2026-01-01T00:00:00Z").bind
      (fun att => verifyConsumptionAttestation att (some "nonce_1")
        "gate_pub_key" fixtureVerify)) =
      .ok { valid := true, error := none } :=
  ⟨rfl, rfl⟩

/-! ## Theorems about the hot-path verification pipeline -/

/-- C8: totality and well-formedness of the hot path. For every input —
any credential or none, any catalog, revocation list, issuer-key map,
rate-limiter state, action and context, and any behavior of the external
callbacks (signature verification is a total boolean function: its
failures are absorbed into `false`) — `verifyLocally` returns a
well-formed `VerifyResult`: either a permit with no denial, or a denial
that carries a denial record. -/
theorem C8_hot_path_totality :
    ∀ (verifySig : Passport → String → Bool)
      (cel : CMap → String → Option Int → CMap → CELResult)
      (anonEval : AnonymousAccessPolicy → String → String → Bool)
      (now : Int) (params : VerifyLocallyParams) (rl : RateLimiterState),
      ((verifyLocally verifySig cel anonEval now params rl).1.allowed = true ∧
       (verifyLocally verifySig cel anonEval now params rl).1.decision =
         "permit" ∧
       (verifyLocally verifySig cel anonEval now params rl).1.denial =
         none) ∨
      ((verifyLocally verifySig cel anonEval now params rl).1.allowed =
         false ∧
       (verifyLocally verifySig cel anonEval now params rl).1.decision =
         "deny" ∧
       ((verifyLocally verifySig cel anonEval now params rl).1.denial).isSome
         = true) := by
  intro vs cel ae now params rl
  unfold verifyLocally
  dsimp only
  repeat' split
  all_goals simp [denyR]

/-- C2: anti-downgrade. With a presented (non-null) credential and
signature verification active, an unknown issuer, an invalid signature,
an expired credential and a revoked credential each produce the denial
naming that failure (in pipeline order), and a credential with any of
these four failures is always denied — never permitted — regardless of
the anonymous-access policy (enabled or not): with a credential present
the anonymous branch is unreachable. -/
theorem C2_anti_downgrade :
    ∀ (verifySig : Passport → String → Bool)
      (cel : CMap → String → Option Int → CMap → CELResult)
      (anonEval : AnonymousAccessPolicy → String → String → Bool)
      (now : Int) (params : VerifyLocallyParams) (rl : RateLimiterState)
      (pp : Passport),
      params.passport = some pp →
      params.skipSignatureVerification = false →
      ((lookupA params.issuerKeys pp.issuer_id = none →
          (verifyLocally verifySig cel anonEval now params rl).1.allowed =
            false ∧
          Option.map VerifyDenial.code
            ((verifyLocally verifySig cel anonEval now params rl).1.denial) =
            some DenyReason.ISSUER_NOT_ALLOWED) ∧
       (∀ key, lookupA params.issuerKeys pp.issuer_id = some key →
          verifySig pp key = false →
          (verifyLocally verifySig cel anonEval now params rl).1.allowed =
            false ∧
          Option.map VerifyDenial.code
            ((verifyLocally verifySig cel anonEval now params rl).1.denial) =
            some DenyReason.INVALID_SIGNATURE) ∧
       (∀ key, lookupA params.issuerKeys pp.issuer_id = some key →
          verifySig pp key = true → pp.expires_at < now →
          (verifyLocally verifySig cel anonEval now params rl).1.allowed =
            false ∧
          Option.map VerifyDenial.code
            ((verifyLocally verifySig cel anonEval now params rl).1.denial) =
            some DenyReason.PASSPORT_EXPIRED) ∧
       (∀ key, lookupA params.issuerKeys pp.issuer_id = some key →
          verifySig pp key = true → ¬(pp.expires_at < now) →
          pp.passport_id ∈ params.revocationList →
          (verifyLocally verifySig cel anonEval now params rl).1.allowed =
            false ∧
          Option.map VerifyDenial.code
            ((verifyLocally verifySig cel anonEval now params rl).1.denial) =
            some DenyReason.PASSPORT_REVOKED) ∧
       ((lookupA params.issuerKeys pp.issuer_id = none ∨
         (∃ key, lookupA params.issuerKeys pp.issuer_id = some key ∧
            verifySig pp key = false) ∨
         pp.expires_at < now ∨
         pp.passport_id ∈ params.revocationList) →
        (verifyLocally verifySig cel anonEval now params rl).1.allowed =
          false ∧
        (verifyLocally verifySig cel anonEval now params rl).1.decision =
          "deny")) := by
  intro vs cel ae now params rl pp hpp hskip
  refine ⟨?_, ?_, ?_, ?_, ?_⟩
  · intro hk
    simp [verifyLocally, hpp, hk, denyR]
  · intro key hk hsig
    simp [verifyLocally, hpp, hk, hskip, hsig, denyR]
  · intro key hk hsig hexp
    simp [verifyLocally, hpp, hk, hskip, hsig, hexp, denyR]
  · intro key hk hsig hexp hrev
    simp [verifyLocally, hpp, hk, hskip, hsig, hexp, hrev, denyR]
  · intro hfail
    rcases hfail with hk | ⟨key, hk, hsig⟩ | hexp | hrev
    · simp [verifyLocally, hpp, hk, denyR]
    · simp [verifyLocally, hpp, hk, hskip, hsig, denyR]
    · rcases hkey : lookupA params.issuerKeys pp.issuer_id with _ | key
      · simp [verifyLocally, hpp, hkey, denyR]
      · cases hs : vs pp key
        · simp [verifyLocally, hpp, hkey, hskip, hs, denyR]
        · simp [verifyLocally, hpp, hkey, hskip, hs, hexp, denyR]
    · rcases hkey : lookupA params.issuerKeys pp.issuer_id with _ | key
      · simp [verifyLocally, hpp, hkey, denyR]
      · cases hs : vs pp key
        · simp [verifyLocally, hpp, hkey, hskip, hs, denyR]
        · by_cases he : pp.expires_at < now
          · simp [verifyLocally, hpp, hkey, hskip, hs, he, denyR]
          · simp [verifyLocally, hpp, hkey, hskip, hs, he, hrev, denyR]

/-- Witness for C2: an expired credential with an enabled anonymous
policy covering the action is denied `PASSPORT_EXPIRED`, never permitted
anonymously. -/
theorem C2_anti_downgrade_witness :
    (verifyLocally sigAlwaysValid celPermit anonAllowListed 2000
        { fixtureParams with anonymousPolicy := some fixtureAnonPolicy }
        emptyRL).1.allowed = false ∧
    Option.map VerifyDenial.code
      ((verifyLocally sigAlwaysValid celPermit anonAllowListed 2000
          { fixtureParams with anonymousPolicy := some fixtureAnonPolicy }
          emptyRL).1.denial) = some DenyReason.PASSPORT_EXPIRED :=
  (C2_anti_downgrade sigAlwaysValid celPermit anonAllowListed 2000
      { fixtureParams with anonymousPolicy := some fixtureAnonPolicy }
      emptyRL fixturePassport rfl rfl).2.2.1 "KEY" (by decide) rfl (by decide)

/-- Counterexample for C3: a credential whose `expires_at` equals the
clock instant of the call (`1000`) is NOT denied `passport_expired` —
the call permits, because the code's deny condition is the strict
comparison `expires_at < now`. -/
theorem C3_counterexample :
    fixturePassport.expires_at = 1000 ∧
    (verifyLocally sigAlwaysValid celPermit anonAllowListed 1000
        fixtureParams emptyRL).1.allowed = true ∧
    (verifyLocally sigAlwaysValid celPermit anonAllowListed 1000
        fixtureParams emptyRL).1.denial = none :=
  ⟨rfl, rfl, rfl⟩

/-- C3 as amended: the expiry denial is issued only for `expires_at`
strictly in the past — whenever `now ≤ expires_at` (equality included)
`verifyLocally` never returns `passport_expired`. -/
theorem C3_expiry_requires_strict_past :
    ∀ (verifySig : Passport → String → Bool)
      (cel : CMap → String → Option Int → CMap → CELResult)
      (anonEval : AnonymousAccessPolicy → String → String → Bool)
      (now : Int) (params : VerifyLocallyParams) (rl : RateLimiterState)
      (pp : Passport),
      params.passport = some pp → now ≤ pp.expires_at →
      Option.map VerifyDenial.code
        ((verifyLocally verifySig cel anonEval now params rl).1.denial) ≠
        some DenyReason.PASSPORT_EXPIRED := by
  intro vs cel ae now params rl pp hpp hle
  unfold verifyLocally
  simp only [hpp]
  intro hcode
  repeat' split at hcode
  all_goals try simp [denyR] at hcode
  all_goals omega

/-- Witness for C3 (amended): at the concrete boundary instant
(`expires_at = now = 1000`) the result is not an expiry denial. -/
theorem C3_expiry_requires_strict_past_witness :
    Option.map VerifyDenial.code
      ((verifyLocally sigAlwaysValid celPermit anonAllowListed 1000
          fixtureParams emptyRL).1.denial) ≠
      some DenyReason.PASSPORT_EXPIRED :=
  C3_expiry_requires_strict_past sigAlwaysValid celPermit anonAllowListed 1000
    fixtureParams emptyRL fixturePassport rfl (by decide)

/-- C9: determinism. Two calls with the same credential, action, context
and cache snapshots, the same rate-limiter state, at the same instant
and with the same external callbacks that both permit return identical
results (the pipeline is a pure function of its inputs: the clock and
all mutable state appear as explicit arguments). -/
theorem C9_determinism :
    ∀ (verifySig : Passport → String → Bool)
      (cel : CMap → String → Option Int → CMap → CELResult)
      (anonEval : AnonymousAccessPolicy → String → String → Bool)
      (now : Int) (p1 p2 : VerifyLocallyParams)
      (rl1 rl2 : RateLimiterState),
      p1 = p2 → rl1 = rl2 →
      (verifyLocally verifySig cel anonEval now p1 rl1).1.allowed = true →
      (verifyLocally verifySig cel anonEval now p2 rl2).1.allowed = true →
      verifyLocally verifySig cel anonEval now p1 rl1 =
        verifyLocally verifySig cel anonEval now p2 rl2 := by
  intro vs cel ae now p1 p2 rl1 rl2 hp hrl _ _
  rw [hp, hrl]

/-- Witness for C9: the determinism theorem applied at the concrete
permitting fixture call. -/
theorem C9_determinism_witness :
    verifyLocally sigAlwaysValid celPermit anonAllowListed 1000
        fixtureParams emptyRL =
      verifyLocally sigAlwaysValid celPermit anonAllowListed 1000
        fixtureParams emptyRL :=
  C9_determinism sigAlwaysValid celPermit anonAllowListed 1000 fixtureParams
    fixtureParams emptyRL emptyRL rfl rfl (by decide) (by decide)

/-- Counterexample for C10: an anonymous permit (null credential,
enabled anonymous policy allowing the action) returns `permit` while
leaving the credential rate limiter exactly as it was — no increment is
applied to any bucket, although the action has a registered limit so
that an increment (with or without a passport id) would have changed
the state. -/
theorem C10_counterexample :
    (verifyLocally sigAlwaysValid celPermit anonAllowListed 500
        fixtureAnonParams fixtureAnonRL).1.allowed = true ∧
    (verifyLocally sigAlwaysValid celPermit anonAllowListed 500
        fixtureAnonParams fixtureAnonRL).2 = fixtureAnonRL ∧
    fixtureAnonRL.increment 500 "data:read" (some "passport_test_123") ≠
      fixtureAnonRL ∧
    fixtureAnonRL.increment 500 "data:read" none ≠ fixtureAnonRL := by
  refine ⟨rfl, rfl, ?_, ?_⟩ <;> decide

/-- C10 as amended: `verifyLocally` leaves the credential rate limiter
unchanged on every denial and on every anonymous call (null credential),
and applies exactly one increment — to the bucket keyed by
`(action, passport_id)` — exactly on a permit granted to a presented
credential. -/
theorem verifyLocally_limiter_cases :
    ∀ (verifySig : Passport → String → Bool)
      (cel : CMap → String → Option Int → CMap → CELResult)
      (anonEval : AnonymousAccessPolicy → String → String → Bool)
      (now : Int) (params : VerifyLocallyParams) (rl : RateLimiterState),
      (((verifyLocally verifySig cel anonEval now params rl).1.allowed =
          false ∨ params.passport = none) ∧
        (verifyLocally verifySig cel anonEval now params rl).2 = rl) ∨
      ((verifyLocally verifySig cel anonEval now params rl).1.allowed =
          true ∧
        params.passport.isSome = true ∧
        (verifyLocally verifySig cel anonEval now params rl).2 =
          rl.increment now params.action
            (Option.map Passport.passport_id params.passport)) := by
  intro vs cel ae now params rl
  unfold verifyLocally
  dsimp only
  repeat' split
  all_goals simp_all [denyR]

theorem C10_rate_limiter_frame :
    ∀ (verifySig : Passport → String → Bool)
      (cel : CMap → String → Option Int → CMap → CELResult)
      (anonEval : AnonymousAccessPolicy → String → String → Bool)
      (now : Int) (params : VerifyLocallyParams) (rl : RateLimiterState),
      (((verifyLocally verifySig cel anonEval now params rl).1.allowed =
          false →
         (verifyLocally verifySig cel anonEval now params rl).2 = rl) ∧
       (params.passport = none →
         (verifyLocally verifySig cel anonEval now params rl).2 = rl) ∧
       (∀ pp : Passport, params.passport = some pp →
         (verifyLocally verifySig cel anonEval now params rl).1.allowed =
           true →
         (verifyLocally verifySig cel anonEval now params rl).2 =
           rl.increment now params.action (some pp.passport_id))) := by
  intro vs cel ae now params rl
  rcases verifyLocally_limiter_cases vs cel ae now params rl with
    ⟨h1, h2⟩ | ⟨h1, h2, h3⟩
  · refine ⟨fun _ => h2, fun _ => h2, ?_⟩
    intro pp hpp hallow
    rcases h1 with h1 | h1
    · rw [hallow] at h1; exact absurd h1 (by simp)
    · rw [hpp] at h1; exact absurd h1 (by simp)
  · refine ⟨?_, ?_, ?_⟩
    · intro hfalse; rw [hfalse] at h1; exact absurd h1 (by simp)
    · intro hnone; rw [hnone] at h2; exact absurd h2 (by simp)
    · intro pp hpp _
      rw [h3, hpp]
      rfl

/-- Witness for C10 (amended): on the concrete permitting fixture call
the returned limiter state is exactly one increment of the entry
state. -/
theorem C10_rate_limiter_frame_witness :
    (verifyLocally sigAlwaysValid celPermit anonAllowListed 1000
        fixtureParams emptyRL).2 =
      emptyRL.increment 1000 "flights:search" (some "passport_test_123") :=
  (C10_rate_limiter_frame sigAlwaysValid celPermit anonAllowListed 1000
      fixtureParams emptyRL).2.2 fixturePassport rfl (by decide)

end Uniplex
